import Mathlib

/-!
Shallow embedding of the e-commerce customer-support server:
the mock data strategy (`src/mcp_server/strategies/mock_strategy.py`),
the pydantic data models (`src/mcp_server/strategies/base.py`) and the
support-service operations (`src/mcp_server/server.py`).

Conventions of the embedding:
* Python `datetime` values are modelled as integer timestamps (seconds);
  `timedelta(days=n)` and `timedelta(hours=n)` become `n * 86400` and
  `n * 3600`.
* Monetary amounts are modelled as rationals; the exact value produced by
  Python's `round(x, 2)` and `random.uniform` is supplied by the
  environment, since no claim depends on it.
* All pseudo-random draws (`random.randint`, `random.choice`, `fake.*`,
  `datetime.now()`) are supplied by an explicit `Env` record. The local
  generator that `_create_dynamic_order` seeds from the digits of the
  identifier is modelled as a function of the identifier string.
* Python dicts keyed by strings become association lists with
  overwrite-on-insert semantics.
* Fallible Python code (attribute access that can raise) is modelled with
  `Except`; the support-service catch-all handlers become a `match` on
  the body's result.
-/

/-- Timestamps, in seconds. Stands in for Python `datetime`. -/
abbrev DateTime := Int

/-- `timedelta(days=n)` in seconds. -/
def days (n : Nat) : DateTime := (n : Int) * 86400

/-- `timedelta(hours=n)` in seconds. -/
def hours (n : Nat) : DateTime := (n : Int) * 3600

/-- Monetary amount (a Python float holding currency); modelled exactly. -/
abbrev Money := ℚ

/-- `Address` model from `base.py`. -/
structure Address where
  line_1 : String
  line_2 : String
  line_3 : String
  town : String
  postcode : String
  country : String
  phone : String
  deriving Repr, DecidableEq

/-- `OrderEntry` model from `base.py`. -/
structure OrderEntry where
  entry_id : String
  product_id : String
  quantity : Nat
  entry_amount : Money
  status : String
  deriving Repr, DecidableEq

/-- `Order` model from `base.py`. -/
structure Order where
  order_id : String
  customer_id : String
  status : String
  created_at : DateTime
  updated_at : DateTime
  entries : List OrderEntry
  total_amount : Money
  shipping_address : Address
  billing_address : Address
  tracking_number : Option String := none
  deriving Repr, DecidableEq

/-- `Return` model from `base.py`. -/
structure Return where
  return_id : String
  order_id : String
  status : String
  reason : String
  items : List String
  created_at : DateTime
  refund_amount : Money
  deriving Repr, DecidableEq

/-- One entry of a tracking history: the `{timestamp, location, status}`
dicts built in `get_order_tracking`. -/
structure HistEvent where
  timestamp : DateTime
  location : String
  status : String
  deriving Repr, DecidableEq

/-- `TrackingInfo` model from `base.py`. Its declared fields are exactly
`tracking_number`, `carrier`, `status`, `estimated_delivery`,
`current_location` and `history` — pydantic silently ignores any other
keyword argument passed to the constructor (default `extra="ignore"`). -/
structure TrackingInfo where
  tracking_number : String
  carrier : String
  status : String
  estimated_delivery : Option DateTime := none
  current_location : Option String := none
  history : List HistEvent := []
  deriving Repr, DecidableEq

/-- The field names of the pydantic `TrackingInfo` model, in declaration
order. -/
def TrackingInfo.fieldNames : List String :=
  ["tracking_number", "carrier", "status", "estimated_delivery",
   "current_location", "history"]

/-- A Python attribute value of a `TrackingInfo` object. -/
inductive PyVal where
  | str : String → PyVal
  | optDt : Option DateTime → PyVal
  | optStr : Option String → PyVal
  | hist : List HistEvent → PyVal
  deriving Repr, DecidableEq

/-- Python attribute access `t.name` on the pydantic model: declared
fields resolve to their value; any other name raises `AttributeError`,
modelled as `none`. -/
def TrackingInfo.pyGetAttr (t : TrackingInfo) (name : String) : Option PyVal :=
  if name = "tracking_number" then some (.str t.tracking_number)
  else if name = "carrier" then some (.str t.carrier)
  else if name = "status" then some (.str t.status)
  else if name = "estimated_delivery" then some (.optDt t.estimated_delivery)
  else if name = "current_location" then some (.optStr t.current_location)
  else if name = "history" then some (.hist t.history)
  else none

/-- The pydantic constructor call made at both call sites in
`get_order_tracking`: it passes `last_update` and `tracking_url` keyword
arguments, which are not declared fields of `TrackingInfo` and therefore
are dropped. Arguments appear in call-site order. -/
def TrackingInfo.fromKwargs (tracking_number carrier status : String)
    (last_update : DateTime) (estimated_delivery : Option DateTime)
    (tracking_url : String) (current_location : Option String)
    (history : List HistEvent) : TrackingInfo :=
  let _ := last_update
  let _ := tracking_url
  { tracking_number := tracking_number, carrier := carrier, status := status,
    estimated_delivery := estimated_delivery,
    current_location := current_location, history := history }

/-- Association list standing in for a Python `dict[str, T]`. Insertion
overwrites in place (Python dicts keep the original position of an
overwritten key). -/
abbrev Store (T : Type) := List (String × T)

/-- `d.get(k)` / `d[k]`: the binding for `k`, if any. -/
def Store.lookup {T : Type} : Store T → String → Option T
  | [], _ => none
  | p :: t, k => if p.1 = k then some p.2 else Store.lookup t k

/-- `d[k] = v`. -/
def Store.insert {T : Type} : Store T → String → T → Store T
  | [], k, v => [(k, v)]
  | p :: t, k, v => if p.1 = k then (k, v) :: t else p :: Store.insert t k v

theorem Store.lookup_insert_self {T : Type} (s : Store T) (k : String) (v : T) :
    (s.insert k v).lookup k = some v := by
  induction s with
  | nil => simp [Store.insert, Store.lookup]
  | cons p t ih =>
    by_cases hp : p.1 = k
    · simp [Store.insert, Store.lookup, hp]
    · simp [Store.insert, Store.lookup, hp, ih]

theorem Store.lookup_insert_ne {T : Type} (s : Store T) (k k' : String) (v : T)
    (h : k' ≠ k) : (s.insert k v).lookup k' = s.lookup k' := by
  induction s with
  | nil => simp [Store.insert, Store.lookup, Ne.symm h]
  | cons p t ih =>
    by_cases hp : p.1 = k
    · simp [Store.insert, Store.lookup, hp, Ne.symm h]
    · simp [Store.insert, Store.lookup, hp, ih]

/-- Every value in `s.insert k v` is `v` or was already a value of `s`. -/
theorem Store.mem_insert {T : Type} (s : Store T) (k : String) (v : T)
    (p : String × T) (hp : p ∈ s.insert k v) : p.2 = v ∨ p ∈ s := by
  induction s with
  | nil =>
    simp [Store.insert] at hp
    left; rw [hp]
  | cons q t ih =>
    by_cases hq : q.1 = k
    · simp only [Store.insert, hq, if_pos, List.mem_cons] at hp
      rcases hp with h | h
      · left; rw [h]
      · right; exact List.mem_cons_of_mem _ h
    · simp only [Store.insert, hq, if_neg, not_false_iff, List.mem_cons] at hp
      rcases hp with h | h
      · right; exact h ▸ List.mem_cons_self _ _
      · rcases ih h with h2 | h2
        · left; exact h2
        · right; exact List.mem_cons_of_mem _ h2

/-! ## Environment: all pseudo-random draws, clock reads and string
formatting done by the Python runtime are supplied explicitly. -/

/-- Draws made by `_create_dynamic_order` from its local generator (seeded
from the digits of the identifier) and from the ambient faker. Indexed
functions give the per-entry draws. -/
structure DynChoices where
  custNum : Nat
  numEntries : Nat
  prodIdx : Nat → Nat
  qty : Nat → Nat
  prodNum : Nat → Nat
  addr : Address
  dayA : Nat
  dayB : Nat
  trkNum : Nat

/-- Draws made by `_generate_mock_data` for one seed order. -/
structure SeedChoices where
  custNum : Nat
  statusIdx : Nat
  createdDays : Nat
  numEntries : Nat
  qty : Nat → Nat
  price : Nat → Money
  prodNum : Nat → Nat
  shipAddr : Address
  billSame : Bool
  billAddr : Address
  updatedHours : Nat
  trkDigits : String

/-- Draws made by one call of `get_order_tracking` from the ambient
generator and faker. -/
structure TrackChoices where
  ensureTrk : Nat
  lostDays : Nat
  lastHours : Nat
  estDays : Nat
  histCount : Nat
  histLoc : Nat → String
  histChoice : Nat → Nat
  loc : String

/-- The ambient Python runtime: clock, random draws and `strftime` /
float formatting, all supplied as data. -/
structure Env where
  now : DateTime
  dyn : String → DynChoices
  seed : Nat → SeedChoices
  round2 : Money → Money
  track : String → TrackChoices
  retDigits : String
  refund : Money
  fmtFull : DateTime → String
  fmtDate : DateTime → String
  fmtMoney : Money → String

/-- In-memory state of `MockDataStrategy`: the `orders` and `returns`
dicts. -/
structure StratState where
  orders : Store Order
  returns : Store Return

/-- `bs` is an initial segment of `as` (executable, structural). -/
def listStartsWith : List Char → List Char → Bool
  | _, [] => true
  | [], _ :: _ => false
  | a :: as, b :: bs => a = b && listStartsWith as bs

/-- Python `str.endswith` (computable by structural recursion, unlike
core `String.endsWith`, so that concrete witnesses evaluate). -/
def pyEndsWith (s suffix : String) : Bool :=
  listStartsWith s.toList.reverse suffix.toList.reverse

/-- Python `str.upper()` for the ASCII identifiers used here. -/
def pyUpper (s : String) : String := ⟨s.toList.map Char.toUpper⟩

/-- Python `str.lower()` for the ASCII strings used here. -/
def pyLower (s : String) : String := ⟨s.toList.map Char.toLower⟩

namespace MockDataStrategy

/-- The fixed product catalog of `_create_dynamic_order`. -/
def products : List (String × Money) :=
  [("Wireless Headphones", 9999/100),
   ("Smartphone Case", 2499/100),
   ("USB Cable", 1299/100),
   ("Bluetooth Speaker", 7999/100),
   ("Phone Charger", 1999/100),
   ("Screen Protector", 999/100),
   ("Memory Card", 3499/100),
   ("Tablet Stand", 2999/100)]

/-- `_parse_order_id`: suffix convention → (status, should_exist). The
suffix checks appear in the dict's insertion order. -/
def parse_order_id (order_id : String) : String × Bool :=
  if pyEndsWith order_id "-E" || pyUpper order_id = "ORD-ERROR" then ("error", false)
  else if pyEndsWith order_id "-D" then ("delivered", true)
  else if pyEndsWith order_id "-C" then ("cancelled", true)
  else if pyEndsWith order_id "-S" then ("shipped", true)
  else if pyEndsWith order_id "-P" then ("processing", true)
  else if pyEndsWith order_id "-F" then ("failed", true)
  else if pyEndsWith order_id "-R" then ("ready_for_pickup", true)
  else if pyEndsWith order_id "-T" then ("in_transit", true)
  else ("pending", true)

/-- One iteration of the entry-generation loop of
`_create_dynamic_order`: pick a product price and a quantity, append an
entry whose amount is `price * quantity`, add that amount to the running
total. -/
def dynEntryStep (c : DynChoices) (order_id status : String)
    (acc : List OrderEntry × Money) (i : Nat) : List OrderEntry × Money :=
  let price := (products.getD (c.prodIdx i % products.length) ("", 0)).2
  let quantity := c.qty i
  let entry_total := price * (quantity : Money)
  (acc.1 ++
    [{ entry_id := "ENTRY-" ++ order_id ++ "-" ++ toString (i + 1),
       product_id := "PROD-" ++ toString (c.prodNum i),
       quantity := quantity,
       entry_amount := entry_total,
       status := if status = "cancelled" then "cancelled" else "active" }],
   acc.2 + entry_total)

/-- The entry-generation loop of `_create_dynamic_order`. -/
def dynEntries (c : DynChoices) (order_id status : String) :
    List OrderEntry × Money :=
  (List.range c.numEntries).foldl (dynEntryStep c order_id status) ([], 0)

/-- `_create_dynamic_order`: builds the order, caches it under
`order_id`, returns it. -/
def create_dynamic_order (env : Env) (st : StratState)
    (order_id status : String) : Order × StratState :=
  let c := env.dyn order_id
  let customer_id := "CUST-" ++ toString c.custNum
  let es := dynEntries c order_id status
  let shipping_address := c.addr
  let created_at :=
    if status = "delivered" then env.now - days c.dayA
    else if status = "shipped" then env.now - days c.dayA
    else if status = "cancelled" then env.now - days c.dayA
    else env.now - days c.dayA
  let updated_at :=
    if status = "delivered" then env.now - days c.dayB
    else if status = "shipped" then env.now - days c.dayB
    else if status = "cancelled" then env.now - days c.dayB
    else created_at + hours c.dayB
  let tracking_number :=
    if status = "shipped" ∨ status = "delivered" ∨ status = "in_transit" then
      some ("TRK" ++ toString c.trkNum)
    else none
  let order : Order :=
    { order_id := order_id, customer_id := customer_id, status := status,
      created_at := created_at, updated_at := updated_at,
      entries := es.1, total_amount := es.2,
      shipping_address := shipping_address,
      billing_address := shipping_address,
      tracking_number := tracking_number }
  (order, { st with orders := st.orders.insert order_id order })

/-- The statuses drawn from in `_generate_mock_data`. -/
def seedStatuses : List String :=
  ["pending", "processing", "shipped", "delivered", "cancelled"]

/-- One iteration of the entry-generation loop of `_generate_mock_data`:
`entry_amount = round(quantity * price_per_item, 2)` is appended and
added to the running total. -/
def seedEntryStep (env : Env) (c : SeedChoices) (order_id status : String)
    (acc : List OrderEntry × Money) (j : Nat) : List OrderEntry × Money :=
  let quantity := c.qty j
  let price_per_item := c.price j
  let entry_amount := env.round2 ((quantity : Money) * price_per_item)
  (acc.1 ++
    [{ entry_id := "ENTRY-" ++ order_id ++ "-" ++ toString (j + 1),
       product_id := "PROD-" ++ toString (c.prodNum j),
       quantity := quantity,
       entry_amount := entry_amount,
       status := if status = "cancelled" then "cancelled" else "active" }],
   acc.2 + entry_amount)

/-- One seed order built by the loop body of `_generate_mock_data`. -/
def seedOrder (env : Env) (i : Nat) : Order :=
  let c := env.seed i
  let order_id := "ORD-" ++ toString (1000 + i)
  let customer_id := "CUST-" ++ toString c.custNum
  let status := seedStatuses.getD (c.statusIdx % seedStatuses.length) ""
  let created_at := env.now - days c.createdDays
  let es : List OrderEntry × Money :=
    (List.range c.numEntries).foldl (seedEntryStep env c order_id status) ([], 0)
  let shipping_address := c.shipAddr
  let billing_address := if c.billSame then c.shipAddr else c.billAddr
  { order_id := order_id, customer_id := customer_id, status := status,
    created_at := created_at,
    updated_at := created_at + hours c.updatedHours,
    entries := es.1, total_amount := es.2,
    shipping_address := shipping_address,
    billing_address := billing_address,
    tracking_number :=
      if status = "shipped" ∨ status = "delivered" then
        some ("TRK" ++ c.trkDigits)
      else none }

/-- `_generate_mock_data`: 20 seed orders `ORD-1000` … `ORD-1019`. -/
def generate_mock_data (env : Env) : Store Order :=
  (List.range 20).foldl
    (fun s i => s.insert ("ORD-" ++ toString (1000 + i)) (seedOrder env i)) []

/-- `MockDataStrategy.__init__`. -/
def init (env : Env) : StratState :=
  { orders := generate_mock_data env, returns := [] }

/-- `get_order`: stored order, else suffix-driven synthesis with
caching, else absent. -/
def get_order (env : Env) (st : StratState) (order_id : String) :
    Option Order × StratState :=
  match st.orders.lookup order_id with
  | some o => (some o, st)
  | none =>
    let ps := parse_order_id order_id
    if ps.2 then
      let r := create_dynamic_order env st order_id ps.1
      (some r.1, r.2)
    else (none, st)

/-- `cancel_order`: resolve (possibly synthesizing), forced failure for
`-F` identifiers, status gate, in-place mutation on success. -/
def cancel_order (env : Env) (st : StratState) (order_id reason : String) :
    Bool × StratState :=
  let _ := reason
  match get_order env st order_id with
  | (none, st1) => (false, st1)
  | (some order, st1) =>
    if pyEndsWith order_id "-F" then (false, st1)
    else if order.status = "pending" ∨ order.status = "processing" then
      let order2 := { order with status := "cancelled", updated_at := env.now }
      (true, { st1 with orders := st1.orders.insert order_id order2 })
    else (false, st1)

/-- `initiate_return`: always succeeds, stores the new `Return`. -/
def initiate_return (env : Env) (st : StratState) (order_id : String)
    (items : List String) (reason : String) : Return × StratState :=
  let return_id := "RET-" ++ env.retDigits
  let return_obj : Return :=
    { return_id := return_id, order_id := order_id, status := "initiated",
      reason := reason, items := items, created_at := env.now,
      refund_amount := env.refund }
  (return_obj, { st with returns := st.returns.insert return_id return_obj })

/-- The fixed carrier list of `get_order_tracking`. -/
def carriers : List String := ["UPS", "FedEx", "USPS", "DHL"]

/-- `sum(ord(c) for c in order_id)`. -/
def charSum (order_id : String) : Nat :=
  (order_id.toList.map Char.toNat).sum

/-- `get_order_tracking`. -/
def get_order_tracking (env : Env) (st : StratState) (order_id : String) :
    Option TrackingInfo × StratState :=
  match get_order env st order_id with
  | (none, st1) => (none, st1)
  | (some order0, st1) =>
    if pyEndsWith order_id "-E" then (none, st1)
    else
      let tc := env.track order_id
      let needsTrk := order0.tracking_number.isNone &&
        ["shipped", "delivered", "in_transit", "failed"].contains order0.status
      let order :=
        if needsTrk then
          { order0 with tracking_number := some ("TRK" ++ toString tc.ensureTrk) }
        else order0
      let st2 :=
        if needsTrk then { st1 with orders := st1.orders.insert order_id order }
        else st1
      match order.tracking_number with
      | none => (none, st2)
      | some trk =>
        let carrier_index := charSum order_id % carriers.length
        let carrier := carriers.getD carrier_index ""
        if pyEndsWith order_id "-F" then
          (some (TrackingInfo.fromKwargs trk carrier "lost"
            (env.now - days tc.lostDays) none
            ("https://" ++ pyLower carrier ++ ".com/track/" ++ trk)
            (some "Unknown")
            [{ timestamp := order.created_at + hours 12,
               location := "Distribution Center",
               status := "Package scanned" },
             { timestamp := order.created_at + days 2,
               location := "In Transit",
               status := "Package lost during transit" }]), st2)
        else
          let tracking_status :=
            if order.status = "in_transit" then "in_transit"
            else if order.status = "delivered" then "delivered"
            else if order.status = "shipped" then "out_for_delivery"
            else order.status
          (some (TrackingInfo.fromKwargs trk carrier tracking_status
            (env.now - hours tc.lastHours)
            (some (order.created_at + days tc.estDays))
            ("https://" ++ pyLower carrier ++ ".com/track/" ++ trk)
            (some tc.loc)
            ((List.range tc.histCount).map (fun i =>
              { timestamp := order.created_at + hours (i * 12),
                location := tc.histLoc i,
                status := "Package " ++
                  (["scanned", "in transit", "out for delivery"].getD
                    (tc.histChoice i % 3) "") }))), st2)

/-- `get_return_policy`: fixed text. -/
def get_return_policy : String :=
  "\n        **Return Policy**\n\n        We offer a 30-day return policy on all items. To be eligible for a return:\n        - Items must be unused and in original packaging\n        - Receipt or proof of purchase is required\n        - Some items may be subject to restocking fees\n\n        To initiate a return, contact our customer service team with your order number.\n        "

end MockDataStrategy

/-! ## Python string helpers used by the support service. -/

/-- `str.title()` for the ASCII strings used here: the first letter of
every alphabetic run is uppercased, the rest lowercased. -/
def pyTitleAux : Bool → List Char → List Char
  | _, [] => []
  | prevAlpha, c :: cs =>
    (if c.isAlpha then (if prevAlpha then c.toLower else c.toUpper) else c)
      :: pyTitleAux c.isAlpha cs

/-- `str.title()`. -/
def pyTitle (s : String) : String := ⟨pyTitleAux false s.toList⟩

/-- Python `needle in hay` on strings. -/
def strContains (hay needle : String) : Bool :=
  decide (List.IsInfix needle.toList hay.toList)

/-- The claim-level "contains" relation: `pat` occurs verbatim in `s`. -/
def ContainsStr (s pat : String) : Prop :=
  ∃ pre post, s = pre ++ pat ++ post

namespace EcommerceMCPServer

open MockDataStrategy

/-- Body of `get_order_status` (the code inside its `try`). An
`AttributeError` can arise in the delivered branch, which reads
`tracking.last_update` — not a field of `TrackingInfo`. -/
def get_order_status_body (env : Env) (st : StratState)
    (order_id : String) : Except String String × StratState :=
  match get_order env st order_id with
  | (none, st1) =>
    (.ok ("Order " ++ order_id ++
      " not found. Please check the order number and try again."), st1)
  | (some order, st1) =>
    let response :=
      "Order " ++ order.order_id ++ " Status: " ++
        pyTitle ((order.status.replace "_" " ")) ++ "\n" ++
      "Order Date: " ++ env.fmtDate order.created_at ++ "\n" ++
      "Total: $" ++ env.fmtMoney order.total_amount ++ "\n"
    if order.status = "shipped" then
      match get_order_tracking env st1 order_id with
      | (some tracking, st2) =>
        let r := response ++
          "\nTracking Number: " ++ tracking.tracking_number ++ "\n" ++
          "Carrier: " ++ tracking.carrier ++ "\n" ++
          "Current Status: " ++ pyTitle (tracking.status.replace "_" " ") ++ "\n"
        let r :=
          match tracking.estimated_delivery with
          | some d => r ++ "Estimated Delivery: " ++ env.fmtDate d ++ "\n"
          | none => r
        (.ok (r ++ "\nYour package has been shipped and is now with the carrier."),
          st2)
      | (none, st2) => (.ok response, st2)
    else if order.status = "in_transit" then
      match get_order_tracking env st1 order_id with
      | (some tracking, st2) =>
        let r := response ++
          "\nTracking Number: " ++ tracking.tracking_number ++ "\n" ++
          "Carrier: " ++ tracking.carrier ++ "\n" ++
          "Current Status: " ++ pyTitle (tracking.status.replace "_" " ") ++ "\n"
        let r :=
          match tracking.current_location with
          | some l => if l ≠ "" then r ++ "Current Location: " ++ l ++ "\n" else r
          | none => r
        let r :=
          match tracking.estimated_delivery with
          | some d => r ++ "Estimated Delivery: " ++ env.fmtDate d ++ "\n"
          | none => r
        (.ok (r ++ "\nYour package is actively moving through the carrier network."),
          st2)
      | (none, st2) => (.ok response, st2)
    else if order.status = "delivered" then
      match get_order_tracking env st1 order_id with
      | (some tracking, st2) =>
        let _r := response ++
          "\nTracking Number: " ++ tracking.tracking_number ++ "\n" ++
          "Carrier: " ++ tracking.carrier ++ "\n"
        match tracking.pyGetAttr "last_update" with
        | none => (.error "AttributeError", st2)
        | some _ => (.error "TypeError", st2)
      | (none, st2) => (.ok response, st2)
    else if order.status = "ready_for_pickup" then
      (.ok (response ++
        "\nYour order is ready for pickup at our store location.\n" ++
        "Please bring a valid ID and your order confirmation."), st1)
    else if order.status = "cancelled" then
      (.ok (response ++ "\nThis order has been cancelled.\n" ++
        "If you were charged, the refund will appear in 3-5 business days."), st1)
    else if order.status = "failed" then
      (.ok (response ++ "\nThere was an issue processing this order.\n" ++
        "Please contact customer service for assistance."), st1)
    else (.ok response, st1)

/-- `get_order_status`: catch-all wrapper around the body. -/
def get_order_status (env : Env) (st : StratState) (order_id : String) :
    String × StratState :=
  match get_order_status_body env st order_id with
  | (.ok r, st1) => (r, st1)
  | (.error _, st1) =>
    ("I encountered an error while checking your order status. Please try again later.",
      st1)

/-- Body of the support service's `cancel_order` (inside its `try`). -/
def cancel_order_body (env : Env) (st : StratState)
    (order_id reason : String) : Except String String × StratState :=
  match get_order env st order_id with
  | (none, st1) =>
    (.ok ("Order " ++ order_id ++
      " not found. Please check the order number and try again."), st1)
  | (some order, st1) =>
    if order.status = "delivered" ∨ order.status = "cancelled" then
      (.ok ("Order " ++ order_id ++ " cannot be cancelled as it is already " ++
        order.status ++ "."), st1)
    else if order.status = "shipped" then
      (.ok ("Order " ++ order_id ++
        " has already shipped. Please use our return process instead."), st1)
    else
      match MockDataStrategy.cancel_order env st1 order_id reason with
      | (true, st2) =>
        (.ok ("Order " ++ order_id ++
          " has been successfully cancelled. You will receive a confirmation email shortly, and any charges will be refunded within 3-5 business days."),
          st2)
      | (false, st2) =>
        (.ok ("Unable to cancel order " ++ order_id ++
          ". Please contact customer service for assistance."), st2)

/-- Support-service `cancel_order`: catch-all wrapper. -/
def cancel_order (env : Env) (st : StratState) (order_id reason : String) :
    String × StratState :=
  match cancel_order_body env st order_id reason with
  | (.ok r, st1) => (r, st1)
  | (.error _, st1) =>
    ("I encountered an error while processing your cancellation. Please try again later.",
      st1)

/-- Body of `process_return` (inside its `try`). `item_ids` is the
optional Python argument; `if not item_ids` treats both `None` and the
empty list as absent. -/
def process_return_body (env : Env) (st : StratState) (order_id : String)
    (item_ids : Option (List String)) (reason : String) :
    Except String String × StratState :=
  match get_order env st order_id with
  | (none, st1) =>
    (.ok ("Order " ++ order_id ++
      " not found. Please check the order number and try again."), st1)
  | (some order, st1) =>
    if ¬ (order.status = "delivered" ∨ order.status = "shipped") then
      (.ok ("Order " ++ order_id ++ " is currently " ++ order.status ++
        " and cannot be returned yet. Returns are available after delivery."),
        st1)
    else
      let items :=
        match item_ids with
        | none => order.entries.map (fun e => e.product_id)
        | some [] => order.entries.map (fun e => e.product_id)
        | some l => l
      let r := initiate_return env st1 order_id items reason
      (.ok ("Return initiated for order " ++ order_id ++ "\n" ++
        "Return ID: " ++ r.1.return_id ++ "\n" ++
        "Items: " ++ String.intercalate ", " items ++ "\n\n" ++
        "Next Steps:\n" ++
        "1. A prepaid return label has been emailed to you\n" ++
        "2. Package the items in original packaging if possible\n" ++
        "3. Attach the return label and drop off at any shipping location\n" ++
        "4. Refund will be processed within 5-7 business days after receipt"),
        r.2)

/-- `process_return`: catch-all wrapper. -/
def process_return (env : Env) (st : StratState) (order_id : String)
    (item_ids : Option (List String)) (reason : String) :
    String × StratState :=
  match process_return_body env st order_id item_ids reason with
  | (.ok r, st1) => (r, st1)
  | (.error _, st1) =>
    ("I encountered an error while processing your return. Please try again later.",
      st1)

/-- Body of `track_package` (inside its `try`). The rendering reads
`tracking.last_update` and `tracking.tracking_url`, neither of which is a
field of `TrackingInfo`, so the success path raises `AttributeError`. -/
def track_package_body (env : Env) (st : StratState)
    (identifier identifier_type : String) : Except String String × StratState :=
  if identifier_type = "order" then
    match get_order_tracking env st identifier with
    | (none, st1) =>
      (.ok ("No tracking information found for order " ++ identifier ++ "."), st1)
    | (some tracking, st1) =>
      let response :=
        "Package Tracking: " ++ tracking.tracking_number ++ "\n" ++
        "Carrier: " ++ tracking.carrier ++ "\n" ++
        "Current Status: " ++ tracking.status ++ "\n"
      match tracking.pyGetAttr "last_update" with
      | none => (.error "AttributeError", st1)
      | some _ =>
        -- unreachable: the model has no `last_update` attribute
        let r :=
          match tracking.estimated_delivery with
          | some d => response ++ "Estimated Delivery: " ++ env.fmtDate d ++ "\n"
          | none => response
        match tracking.pyGetAttr "tracking_url" with
        | none => (.error "AttributeError", st1)
        | some (.str u) =>
          (.ok (if u ≠ "" then r ++ "\nFor detailed tracking, visit: " ++ u else r),
            st1)
        | some _ => (.error "TypeError", st1)
  else
    (.ok "Tracking by tracking number not yet implemented. Please provide an order ID instead.",
      st)

/-- `track_package`: catch-all wrapper. -/
def track_package (env : Env) (st : StratState)
    (identifier identifier_type : String) : String × StratState :=
  match track_package_body env st identifier identifier_type with
  | (.ok r, st1) => (r, st1)
  | (.error _, st1) =>
    ("I encountered an error while tracking your package. Please try again later.",
      st1)

/-- Body of `get_support_info` (inside its `try`): pure keyword routing. -/
def get_support_info_body (env : Env) (st : StratState) (topic : String) :
    Except String String × StratState :=
  let _ := env
  let topic_lower := pyLower topic
  if strContains topic_lower "return" || strContains topic_lower "refund" then
    (.ok ("Return Policy:\n" ++ get_return_policy ++
      "\n\nTo process a return, provide your order number."), st)
  else if strContains topic_lower "shipping" || strContains topic_lower "delivery" then
    (.ok ("Shipping Information:\n• Standard shipping: 5-7 business days ($5.99)\n• Express shipping: 2-3 business days ($12.99)\n• Overnight shipping: 1 business day ($24.99)\n\nFree standard shipping on orders over $50!"),
      st)
  else if strContains topic_lower "contact" || strContains topic_lower "support" then
    (.ok ("Contact Information:\n• Phone: 1-800-SUPPORT (24/7)\n• Email: support@example.com\n• Live Chat: Available on our website\n\nWe're here to help with orders, returns, and any questions!"),
      st)
  else
    (.ok ("How can I help you today? I can assist with:\n• Order status and tracking\n• Order cancellations\n• Returns and refunds\n• Shipping information\n• Contact information\n\nPlease let me know what you need help with!"),
      st)

/-- `get_support_info`: catch-all wrapper. -/
def get_support_info (env : Env) (st : StratState) (topic : String) :
    String × StratState :=
  match get_support_info_body env st topic with
  | (.ok r, st1) => (r, st1)
  | (.error _, st1) =>
    ("I encountered an error. Please contact customer support at 1-800-SUPPORT.",
      st1)

end EcommerceMCPServer

/-! ## Concrete fixtures used by witnesses and counterexamples. -/

/-- A concrete address. -/
def addr0 : Address :=
  { line_1 := "1 Main St", line_2 := "", line_3 := "", town := "Springfield",
    postcode := "00000", country := "USA", phone := "555-0100" }

/-- Concrete draws for `_create_dynamic_order`. -/
def dyn0 : DynChoices :=
  { custNum := 500, numEntries := 2, prodIdx := fun _ => 0, qty := fun _ => 1,
    prodNum := fun _ => 1234, addr := addr0, dayA := 3, dayB := 1,
    trkNum := 123456789012 }

/-- Concrete draws for `_generate_mock_data`. -/
def seed0 : SeedChoices :=
  { custNum := 150, statusIdx := 0, createdDays := 5, numEntries := 1,
    qty := fun _ => 1, price := fun _ => 10, prodNum := fun _ => 1,
    shipAddr := addr0, billSame := true, billAddr := addr0,
    updatedHours := 2, trkDigits := "123456789012" }

/-- Concrete draws for `get_order_tracking`. -/
def track0 : TrackChoices :=
  { ensureTrk := 111111111111, lostDays := 3, lastHours := 1, estDays := 3,
    histCount := 2, histLoc := fun _ => "Springfield, IL",
    histChoice := fun _ => 0, loc := "Springfield, IL" }

/-- A concrete runtime environment. -/
def env0 : Env :=
  { now := 1000000, dyn := fun _ => dyn0, seed := fun _ => seed0,
    round2 := fun q => q, track := fun _ => track0, retDigits := "1234",
    refund := 50, fmtFull := fun _ => "January 01, 2026 at 12:00 PM",
    fmtDate := fun _ => "January 01, 2026", fmtMoney := fun _ => "0.00" }

/-- The empty strategy state. -/
def st0 : StratState := { orders := [], returns := [] }

/-! ## Claim-side characterisations. -/

/-- The suffix → status map exactly as the claims state it:
`-D` delivered, `-C` cancelled, `-S` shipped, `-P` processing,
`-F` failed, `-R` ready_for_pickup, `-T` in_transit, no suffix pending. -/
def claimSuffixStatus (order_id : String) : String :=
  if pyEndsWith order_id "-D" then "delivered"
  else if pyEndsWith order_id "-C" then "cancelled"
  else if pyEndsWith order_id "-S" then "shipped"
  else if pyEndsWith order_id "-P" then "processing"
  else if pyEndsWith order_id "-F" then "failed"
  else if pyEndsWith order_id "-R" then "ready_for_pickup"
  else if pyEndsWith order_id "-T" then "in_transit"
  else "pending"

/-- An identifier that matches none of the suffix conventions of
`_parse_order_id` and is not the error sentinel. -/
def plainId (order_id : String) : Prop :=
  pyEndsWith order_id "-E" = false ∧ pyUpper order_id ≠ "ORD-ERROR" ∧
  pyEndsWith order_id "-D" = false ∧ pyEndsWith order_id "-C" = false ∧
  pyEndsWith order_id "-S" = false ∧ pyEndsWith order_id "-P" = false ∧
  pyEndsWith order_id "-F" = false ∧ pyEndsWith order_id "-R" = false ∧
  pyEndsWith order_id "-T" = false

/-- Under the hypotheses of the suffix branch, `_parse_order_id` returns
the claim-side status and `should_exist = true`. -/
theorem parse_order_id_eq (order_id : String)
    (h1 : pyEndsWith order_id "-E" = false)
    (h2 : pyUpper order_id ≠ "ORD-ERROR") :
    MockDataStrategy.parse_order_id order_id = (claimSuffixStatus order_id, true) := by
  unfold MockDataStrategy.parse_order_id claimSuffixStatus
  have hc : (pyEndsWith order_id "-E" || decide (pyUpper order_id = "ORD-ERROR"))
      = false := by
    rw [h1]
    simp [h2]
  simp only [hc, Bool.false_eq_true, if_false]
  split_ifs <;> rfl

/-- The status field of a dynamically synthesized order is the status it
was asked for. -/
theorem create_dynamic_order_status (env : Env) (st : StratState)
    (order_id status : String) :
    ((MockDataStrategy.create_dynamic_order env st order_id status).1).status
      = status := rfl

/-- The state returned by `_create_dynamic_order` caches the new order
in `orders` and leaves `returns` alone. -/
theorem create_dynamic_order_state (env : Env) (st : StratState)
    (order_id status : String) :
    ((MockDataStrategy.create_dynamic_order env st order_id status).2).orders
      = st.orders.insert order_id
          (MockDataStrategy.create_dynamic_order env st order_id status).1 ∧
    ((MockDataStrategy.create_dynamic_order env st order_id status).2).returns
      = st.returns := ⟨rfl, rfl⟩

/-- `get_order` on a stored key returns the stored order and does not
touch the state. -/
theorem get_order_stored (env : Env) (st : StratState) (order_id : String)
    (o : Order) (ho : st.orders.lookup order_id = some o) :
    MockDataStrategy.get_order env st order_id = (some o, st) := by
  simp [MockDataStrategy.get_order, ho]

/-- `get_order` on an unseen `-E` / `ORD-ERROR` identifier returns
absent and does not touch the state. -/
theorem get_order_absent (env : Env) (st : StratState) (order_id : String)
    (hnone : st.orders.lookup order_id = none)
    (herr : pyEndsWith order_id "-E" = true ∨ pyUpper order_id = "ORD-ERROR") :
    MockDataStrategy.get_order env st order_id = (none, st) := by
  have hp : MockDataStrategy.parse_order_id order_id = ("error", false) := by
    unfold MockDataStrategy.parse_order_id
    rcases herr with h | h
    · simp [h]
    · simp [h]
  simp [MockDataStrategy.get_order, hnone, hp]

/-- `get_order` on any other unseen identifier synthesizes an order via
`_create_dynamic_order` with the suffix-mapped status. -/
theorem get_order_synth (env : Env) (st : StratState) (order_id : String)
    (hnone : st.orders.lookup order_id = none)
    (h1 : pyEndsWith order_id "-E" = false)
    (h2 : pyUpper order_id ≠ "ORD-ERROR") :
    MockDataStrategy.get_order env st order_id =
      (some (MockDataStrategy.create_dynamic_order env st order_id
          (claimSuffixStatus order_id)).1,
       (MockDataStrategy.create_dynamic_order env st order_id
          (claimSuffixStatus order_id)).2) := by
  have hp := parse_order_id_eq order_id h1 h2
  simp only [MockDataStrategy.get_order, hnone, hp]
  rfl

/-- C1: for every order_id, `get_order` returns the stored order
unchanged when the id is a key of the store; otherwise it returns absent
for `-E` / the `ORD-ERROR` sentinel; otherwise it synthesizes an order
whose status is given by the suffix map, caches it under the id, and
returns it. -/
theorem C1_get_order_resolution (env : Env) (st : StratState) (order_id : String) :
    (∀ o, st.orders.lookup order_id = some o →
        MockDataStrategy.get_order env st order_id = (some o, st)) ∧
    (st.orders.lookup order_id = none →
      (pyEndsWith order_id "-E" = true ∨ pyUpper order_id = "ORD-ERROR") →
        MockDataStrategy.get_order env st order_id = (none, st)) ∧
    (st.orders.lookup order_id = none →
      pyEndsWith order_id "-E" = false → pyUpper order_id ≠ "ORD-ERROR" →
        ∃ o, MockDataStrategy.get_order env st order_id =
            (some o, { st with orders := st.orders.insert order_id o }) ∧
          o.status = claimSuffixStatus order_id ∧
          Store.lookup (st.orders.insert order_id o) order_id = some o) := by
  refine ⟨fun o ho => get_order_stored env st order_id o ho,
    fun hnone herr => get_order_absent env st order_id hnone herr,
    fun hnone h1 h2 => ?_⟩
  refine ⟨(MockDataStrategy.create_dynamic_order env st order_id
      (claimSuffixStatus order_id)).1, ?_,
    create_dynamic_order_status env st order_id (claimSuffixStatus order_id),
    Store.lookup_insert_self _ _ _⟩
  rw [get_order_synth env st order_id hnone h1 h2]
  rfl

/-- Witness for C1: all three branches at concrete inputs — a stored
order is returned unchanged, an `-E` id is absent, and `ORD-2-D` is
synthesized with status delivered. -/
theorem C1_witness :
    MockDataStrategy.get_order env0 st0 "ORD-1-E" = (none, st0) ∧
    (MockDataStrategy.get_order env0 st0 "ORD-2-D").1.map Order.status
      = some "delivered" := by
  constructor
  · exact (C1_get_order_resolution env0 st0 "ORD-1-E").2.1 rfl (Or.inl (by decide))
  · obtain ⟨o, hgo, hstat, _⟩ :=
      (C1_get_order_resolution env0 st0 "ORD-2-D").2.2 rfl (by decide) (by decide)
    rw [hgo]
    have hd : o.status = "delivered" := by
      rw [hstat]
      decide
    simp [hd]

/-- C2: a previously-unseen identifier matching none of the suffix
conventions synthesizes an order with status "pending", and a second
`get_order` call (under any environment, with no intervening mutation)
returns the identical record: synthesis is idempotent within one
process lifetime. -/
theorem C2_pending_idempotent (env1 env2 : Env) (st : StratState)
    (order_id : String)
    (hnew : st.orders.lookup order_id = none)
    (hplain : plainId order_id) :
    ∃ o st1, MockDataStrategy.get_order env1 st order_id = (some o, st1) ∧
      o.status = "pending" ∧
      MockDataStrategy.get_order env2 st1 order_id = (some o, st1) := by
  obtain ⟨hE, hErr, hD, hC, hS, hP, hF, hR, hT⟩ := hplain
  have hcs : claimSuffixStatus order_id = "pending" := by
    unfold claimSuffixStatus
    simp [hD, hC, hS, hP, hF, hR, hT]
  refine ⟨(MockDataStrategy.create_dynamic_order env1 st order_id
      (claimSuffixStatus order_id)).1,
    (MockDataStrategy.create_dynamic_order env1 st order_id
      (claimSuffixStatus order_id)).2,
    get_order_synth env1 st order_id hnew hE hErr, ?_, ?_⟩
  · rw [create_dynamic_order_status, hcs]
  · apply get_order_stored
    rw [(create_dynamic_order_state env1 st order_id (claimSuffixStatus order_id)).1]
    exact Store.lookup_insert_self _ _ _

/-- Witness for C2: `ORD-9999` yields a pending order and the second
lookup returns the same record. -/
theorem C2_witness :
    (MockDataStrategy.get_order env0 st0 "ORD-9999").1.map Order.status
        = some "pending" ∧
    (MockDataStrategy.get_order env0
        (MockDataStrategy.get_order env0 st0 "ORD-9999").2 "ORD-9999").1
      = (MockDataStrategy.get_order env0 st0 "ORD-9999").1 := by
  obtain ⟨o, st1, h1, h2, h3⟩ :=
    C2_pending_idempotent env0 env0 st0 "ORD-9999" rfl
      ⟨by decide, by decide, by decide, by decide, by decide, by decide,
       by decide, by decide, by decide⟩
  rw [h1]
  constructor
  · simp [h2]
  · simp [h3]

/-- The in-place mutation performed by a successful `cancel_order`:
the cached order's status becomes "cancelled" and its `updated_at` is
refreshed to the current time. -/
def cancelledUpd (env : Env) (st1 : StratState) (order_id : String)
    (o : Order) : StratState :=
  let o2 : Order := { o with status := "cancelled", updated_at := env.now }
  { st1 with orders := st1.orders.insert order_id o2 }

/-- C3: `cancel_order` returns false when the identifier resolves to no
order, when the identifier ends in `-F` (regardless of the resolved
order's status), or when the resolved order's status is not in
{pending, processing}; otherwise it sets the order's status to
cancelled, refreshes `updated_at`, and returns true. -/
theorem C3_cancel_order (env : Env) (st : StratState) (order_id reason : String) :
    (∀ st1, MockDataStrategy.get_order env st order_id = (none, st1) →
        MockDataStrategy.cancel_order env st order_id reason = (false, st1)) ∧
    (∀ o st1, MockDataStrategy.get_order env st order_id = (some o, st1) →
      (pyEndsWith order_id "-F" = true →
          MockDataStrategy.cancel_order env st order_id reason = (false, st1)) ∧
      (pyEndsWith order_id "-F" = false →
        o.status ≠ "pending" → o.status ≠ "processing" →
          MockDataStrategy.cancel_order env st order_id reason = (false, st1)) ∧
      (pyEndsWith order_id "-F" = false →
        (o.status = "pending" ∨ o.status = "processing") →
          MockDataStrategy.cancel_order env st order_id reason =
            (true, cancelledUpd env st1 order_id o))) := by
  constructor
  · intro st1 hgo
    simp [MockDataStrategy.cancel_order, hgo]
  · intro o st1 hgo
    refine ⟨?_, ?_, ?_⟩
    · intro hF
      simp [MockDataStrategy.cancel_order, hgo, hF]
    · intro hF hnp hnpr
      simp [MockDataStrategy.cancel_order, hgo, hF, hnp, hnpr]
    · intro hF hst
      rcases hst with h | h <;>
        simp [MockDataStrategy.cancel_order, hgo, hF, h, cancelledUpd]

/-- Witness for C3: the synthesized processing order `ORD-5-P` is
cancellable and an `-F` identifier is always refused. -/
theorem C3_witness :
    (MockDataStrategy.cancel_order env0 st0 "ORD-5-P" "req").1 = true ∧
    (MockDataStrategy.cancel_order env0 st0 "ORD-6-F" "req").1 = false := by
  constructor
  · have hgo := get_order_synth env0 st0 "ORD-5-P" rfl (by decide) (by decide)
    have h := (((C3_cancel_order env0 st0 "ORD-5-P" "req").2 _ _ hgo).2.2)
      (by decide)
      (Or.inr (by rw [create_dynamic_order_status]; decide))
    rw [h]
  · have hgo := get_order_synth env0 st0 "ORD-6-F" rfl (by decide) (by decide)
    have h := (((C3_cancel_order env0 st0 "ORD-6-F" "req").2 _ _ hgo).1)
      (by decide)
    rw [h]

/-- C8: `cancel_order` on an order already stored with status "shipped"
or "delivered" returns false and leaves the strategy state — the order
and everything else — completely unchanged. -/
theorem C8_cancel_frame (env : Env) (st : StratState) (order_id reason : String)
    (o : Order) (ho : st.orders.lookup order_id = some o)
    (hst : o.status = "shipped" ∨ o.status = "delivered") :
    MockDataStrategy.cancel_order env st order_id reason = (false, st) := by
  have hgo := get_order_stored env st order_id o ho
  by_cases hF : pyEndsWith order_id "-F" = true
  · simp [MockDataStrategy.cancel_order, hgo, hF]
  · rcases hst with h | h <;>
      simp [MockDataStrategy.cancel_order, hgo, hF, h]

/-- A concrete shipped order, stored under `ORD-A`. -/
def orderShip : Order :=
  { order_id := "ORD-A", customer_id := "CUST-1", status := "shipped",
    created_at := 0, updated_at := 0, entries := [], total_amount := 0,
    shipping_address := addr0, billing_address := addr0,
    tracking_number := some "TRK1" }

/-- A strategy state holding only the shipped order. -/
def stShip : StratState := { orders := [("ORD-A", orderShip)], returns := [] }

/-- Witness for C8 at the concrete shipped order. -/
theorem C8_witness :
    MockDataStrategy.cancel_order env0 stShip "ORD-A" "req" = (false, stShip) :=
  C8_cancel_frame env0 stShip "ORD-A" "req" orderShip rfl (Or.inl rfl)

/-- The creation-time invariant the claims speak about: `total_amount`
equals the sum of the entries' `entry_amount`. -/
def totalOk (o : Order) : Prop :=
  o.total_amount = (o.entries.map OrderEntry.entry_amount).sum

/-- The dynamic-entry loop keeps the running total equal to the sum of
the accumulated entries' amounts. -/
theorem dynEntries_total_eq_sum (c : DynChoices) (order_id status : String)
    (l : List Nat) (acc : List OrderEntry × Money)
    (h : acc.2 = (acc.1.map OrderEntry.entry_amount).sum) :
    (l.foldl (MockDataStrategy.dynEntryStep c order_id status) acc).2
      = ((l.foldl (MockDataStrategy.dynEntryStep c order_id status) acc).1.map
          OrderEntry.entry_amount).sum := by
  induction l generalizing acc with
  | nil => simpa using h
  | cons x xs ih =>
    simp only [List.foldl_cons]
    apply ih
    simp [MockDataStrategy.dynEntryStep, h]

/-- The seed-entry loop keeps the running total equal to the sum of the
accumulated entries' amounts. -/
theorem seedEntries_total_eq_sum (env : Env) (c : SeedChoices)
    (order_id status : String) (l : List Nat) (acc : List OrderEntry × Money)
    (h : acc.2 = (acc.1.map OrderEntry.entry_amount).sum) :
    (l.foldl (MockDataStrategy.seedEntryStep env c order_id status) acc).2
      = ((l.foldl (MockDataStrategy.seedEntryStep env c order_id status) acc).1.map
          OrderEntry.entry_amount).sum := by
  induction l generalizing acc with
  | nil => simpa using h
  | cons x xs ih =>
    simp only [List.foldl_cons]
    apply ih
    simp [MockDataStrategy.seedEntryStep, h]

/-- Every dynamically synthesized order satisfies the invariant at
creation time. -/
theorem create_dynamic_order_total (env : Env) (st : StratState)
    (order_id status : String) :
    totalOk (MockDataStrategy.create_dynamic_order env st order_id status).1 :=
  dynEntries_total_eq_sum (env.dyn order_id) order_id status
    (List.range (env.dyn order_id).numEntries) ([], 0) (by simp)

/-- Every seed order satisfies the invariant at creation time. -/
theorem seedOrder_total (env : Env) (i : Nat) :
    totalOk (MockDataStrategy.seedOrder env i) :=
  seedEntries_total_eq_sum env (env.seed i) ("ORD-" ++ toString (1000 + i))
    (MockDataStrategy.seedStatuses.getD ((env.seed i).statusIdx %
      MockDataStrategy.seedStatuses.length) "")
    (List.range (env.seed i).numEntries) ([], 0) (by simp)

/-- Folding seed-order insertions preserves the invariant for every
stored order. -/
theorem generate_mock_data_aux (env : Env) (l : List Nat) (s : Store Order)
    (hs : ∀ p ∈ s, totalOk (Prod.snd p)) :
    ∀ p ∈ l.foldl (fun s2 i =>
        Store.insert s2 ("ORD-" ++ toString (1000 + i))
          (MockDataStrategy.seedOrder env i)) s,
      totalOk (Prod.snd p) := by
  induction l generalizing s with
  | nil => simpa using hs
  | cons x xs ih =>
    simp only [List.foldl_cons]
    apply ih
    intro p hp
    rcases Store.mem_insert _ _ _ p hp with h | h
    · rw [h]
      exact seedOrder_total env x
    · exact hs p h

/-- C6: every synthesized order — the 20 seed-pool orders created at
strategy initialization and every dynamically created order — has
`total_amount` equal to the sum of its entries' `entry_amount` at
creation time. -/
theorem C6_total_amount :
    (∀ env : Env, ∀ p ∈ MockDataStrategy.generate_mock_data env,
      totalOk (Prod.snd p)) ∧
    (∀ (env : Env) (st : StratState) (order_id status : String),
      totalOk (MockDataStrategy.create_dynamic_order env st order_id status).1) := by
  constructor
  · intro env
    exact generate_mock_data_aux env (List.range 20) [] (by simp)
  · intro env st order_id status
    exact create_dynamic_order_total env st order_id status

/-- A stored binding survives an insertion under a different key. -/
theorem Store.mem_insert_of_ne {T : Type} (s : Store T) (k k' : String)
    (v v' : T) (h : (k, v) ∈ s) (hne : k ≠ k') : (k, v) ∈ s.insert k' v' := by
  induction s with
  | nil => simp at h
  | cons p t ih =>
    by_cases hp : p.1 = k'
    · simp only [Store.insert, hp, if_pos]
      rcases List.mem_cons.mp h with h1 | h1
      · exact absurd (by rw [← h1] at hp; simpa using hp) hne
      · exact List.mem_cons_of_mem _ h1
    · simp only [Store.insert, hp, if_neg, not_false_iff]
      rcases List.mem_cons.mp h with h1 | h1
      · exact h1 ▸ List.mem_cons_self _ _
      · exact List.mem_cons_of_mem _ (ih h1)

/-- A stored binding survives the rest of the seed-insertion loop as
long as its key is none of the remaining seed keys. -/
theorem mem_foldl_insert (env : Env) (l : List Nat) (s : Store Order)
    (k : String) (v : Order) (hmem : (k, v) ∈ s)
    (hk : ∀ i ∈ l, k ≠ "ORD-" ++ toString (1000 + i)) :
    (k, v) ∈ l.foldl (fun s2 i =>
      Store.insert s2 ("ORD-" ++ toString (1000 + i))
        (MockDataStrategy.seedOrder env i)) s := by
  induction l generalizing s with
  | nil => simpa using hmem
  | cons x xs ih =>
    simp only [List.foldl_cons]
    apply ih
    · exact Store.mem_insert_of_ne s k _ v _ hmem (hk x (List.mem_cons_self _ _))
    · intro i hi
      exact hk i (List.mem_cons_of_mem _ hi)

/-- Witness for C6: the first seed order of the concrete environment is
in the store and satisfies the invariant. -/
theorem C6_witness :
    ("ORD-1000", MockDataStrategy.seedOrder env0 0)
        ∈ MockDataStrategy.generate_mock_data env0 ∧
    totalOk (MockDataStrategy.seedOrder env0 0) := by
  have hmem1 : ("ORD-1000", MockDataStrategy.seedOrder env0 0)
      ∈ Store.insert ([] : Store Order) "ORD-1000"
          (MockDataStrategy.seedOrder env0 0) := by
    simp [Store.insert]
  have hm : ("ORD-1000", MockDataStrategy.seedOrder env0 0)
      ∈ MockDataStrategy.generate_mock_data env0 := by
    unfold MockDataStrategy.generate_mock_data
    have hr : List.range 20 = 0 ::
        [1, 2, 3, 4, 5, 6, 7, 8, 9, 10, 11, 12, 13, 14, 15, 16, 17, 18, 19] := by
      decide
    rw [hr, List.foldl_cons]
    exact mem_foldl_insert env0 _ _ _ _ hmem1 (by decide)
  exact ⟨hm, C6_total_amount.1 env0 _ hm⟩

/-- Every tracking record produced by `get_order_tracking` carries the
deterministically selected carrier: the fixed list indexed by the sum of
the identifier's character codes modulo the list length. -/
theorem get_order_tracking_carrier (env : Env) (st : StratState)
    (order_id : String) (t : TrackingInfo) (st1 : StratState)
    (h : MockDataStrategy.get_order_tracking env st order_id = (some t, st1)) :
    t.carrier = MockDataStrategy.carriers.getD
      (MockDataStrategy.charSum order_id % MockDataStrategy.carriers.length)
      "" := by
  unfold MockDataStrategy.get_order_tracking at h
  rcases hgo : MockDataStrategy.get_order env st order_id with ⟨ro, sta⟩
  rw [hgo] at h
  cases ro with
  | none => simp at h
  | some order0 =>
    by_cases hE : pyEndsWith order_id "-E" = true
    · simp [hE] at h
    · simp only [hE, Bool.false_eq_true, if_false] at h
      by_cases hN : (order0.tracking_number.isNone &&
          (["shipped", "delivered", "in_transit", "failed"].contains
            order0.status)) = true
      · simp only [hN, if_true] at h
        split at h
        · injection h with h1 h2
          injection h1 with h1
          rw [← h1]
          rfl
        · injection h with h1 h2
          injection h1 with h1
          rw [← h1]
          rfl
      · simp only [hN, Bool.false_eq_true, if_false] at h
        rcases htn : order0.tracking_number with _ | trk
        · rw [htn] at h
          simp at h
        · rw [htn] at h
          split at h
          · simp at h
          · split at h
            · injection h with h1 h2
              injection h1 with h1
              rw [← h1]
              rfl
            · injection h with h1 h2
              injection h1 with h1
              rw [← h1]
              rfl

/-- C7: whenever `get_order_tracking` returns a record, its carrier is
the fixed carrier list indexed by the sum of the identifier's character
codes modulo the list length, so two tracking queries on the same
identifier always report the same carrier. -/
theorem C7_carrier_formula (order_id : String) :
    (∀ (env : Env) (st : StratState) (t : TrackingInfo) (st1 : StratState),
      MockDataStrategy.get_order_tracking env st order_id = (some t, st1) →
        t.carrier = MockDataStrategy.carriers.getD
          (MockDataStrategy.charSum order_id %
            MockDataStrategy.carriers.length) "") ∧
    (∀ (env : Env) (st : StratState) (t : TrackingInfo) (st1 : StratState)
       (env' : Env) (st' : StratState) (t' : TrackingInfo) (st1' : StratState),
      MockDataStrategy.get_order_tracking env st order_id = (some t, st1) →
      MockDataStrategy.get_order_tracking env' st' order_id = (some t', st1') →
        t.carrier = t'.carrier) := by
  refine ⟨fun env st t st1 h =>
    get_order_tracking_carrier env st order_id t st1 h, ?_⟩
  intro env st t st1 env' st' t' st1' h h'
  rw [get_order_tracking_carrier env st order_id t st1 h,
    get_order_tracking_carrier env' st' order_id t' st1' h']

/-! ## String containment. -/

theorem strNil_append (s : String) : "" ++ s = s := by
  rcases s with ⟨d⟩
  rfl

theorem strAppend_nil (s : String) : s ++ "" = s := by
  rcases s with ⟨d⟩
  show String.mk (d ++ []) = String.mk d
  rw [List.append_nil]

theorem strAppend_assoc (a b c : String) : a ++ b ++ c = a ++ (b ++ c) := by
  rcases a with ⟨da⟩
  rcases b with ⟨db⟩
  rcases c with ⟨dc⟩
  show String.mk (da ++ db ++ dc) = String.mk (da ++ (db ++ dc))
  rw [List.append_assoc]

theorem containsStr_appendL (s s2 pat : String) (h : ContainsStr s pat) :
    ContainsStr (s ++ s2) pat := by
  obtain ⟨pre, post, rfl⟩ := h
  exact ⟨pre, post ++ s2, by rw [strAppend_assoc, strAppend_assoc]⟩

theorem containsStr_appendR (s s2 pat : String) (h : ContainsStr s2 pat) :
    ContainsStr (s ++ s2) pat := by
  obtain ⟨pre, post, rfl⟩ := h
  exact ⟨s ++ pre, post, by
    rw [strAppend_assoc, strAppend_assoc, strAppend_assoc]⟩

theorem containsStr_self (pat : String) : ContainsStr pat pat :=
  ⟨"", "", by rw [strNil_append, strAppend_nil]⟩

theorem strContains_of_containsStr (s pat : String) (h : ContainsStr s pat) :
    strContains s pat = true := by
  obtain ⟨pre, post, rfl⟩ := h
  unfold strContains
  apply decide_eq_true
  refine ⟨pre.toList, post.toList, ?_⟩
  rcases pre with ⟨dpre⟩
  rcases pat with ⟨dpat⟩
  rcases post with ⟨dpost⟩
  rfl

/-- The item list `process_return` passes to `initiate_return`: the
supplied `item_ids` unless absent (`None`) or empty — Python's
`if not item_ids` — in which case all entries' product ids. -/
def pyItems (item_ids : Option (List String)) (o : Order) : List String :=
  match item_ids with
  | none => o.entries.map (fun e => e.product_id)
  | some [] => o.entries.map (fun e => e.product_id)
  | some l => l

/-- The `Return` that `process_return` records on success. -/
def mkReturn (env : Env) (order_id reason : String)
    (items : List String) : Return :=
  { return_id := "RET-" ++ env.retDigits, order_id := order_id,
    status := "initiated", reason := reason, items := items,
    created_at := env.now, refund_amount := env.refund }

/-- `process_return` on a resolvable order that is neither delivered nor
shipped: the explicit rejection text, state untouched beyond resolution. -/
theorem process_return_reject (env : Env) (st : StratState) (order_id : String)
    (item_ids : Option (List String)) (reason : String) (o : Order)
    (st1 : StratState)
    (hgo : MockDataStrategy.get_order env st order_id = (some o, st1))
    (hd : o.status ≠ "delivered") (hs : o.status ≠ "shipped") :
    EcommerceMCPServer.process_return env st order_id item_ids reason =
      ("Order " ++ order_id ++ " is currently " ++ o.status ++
        " and cannot be returned yet. Returns are available after delivery.",
       st1) := by
  unfold EcommerceMCPServer.process_return EcommerceMCPServer.process_return_body
  rw [hgo]
  simp [hd, hs]

/-- `process_return` on a delivered or shipped order: the confirmation
text with the generated return id and the item list. -/
theorem process_return_success_resp (env : Env) (st : StratState)
    (order_id : String) (item_ids : Option (List String)) (reason : String)
    (o : Order) (st1 : StratState)
    (hgo : MockDataStrategy.get_order env st order_id = (some o, st1))
    (hst : o.status = "delivered" ∨ o.status = "shipped") :
    (EcommerceMCPServer.process_return env st order_id item_ids reason).1 =
      "Return initiated for order " ++ order_id ++ "\n" ++
      "Return ID: " ++ ("RET-" ++ env.retDigits) ++ "\n" ++
      "Items: " ++ String.intercalate ", " (pyItems item_ids o) ++ "\n\n" ++
      "Next Steps:\n" ++
      "1. A prepaid return label has been emailed to you\n" ++
      "2. Package the items in original packaging if possible\n" ++
      "3. Attach the return label and drop off at any shipping location\n" ++
      "4. Refund will be processed within 5-7 business days after receipt" := by
  unfold EcommerceMCPServer.process_return EcommerceMCPServer.process_return_body
  rw [hgo]
  rcases hst with h | h <;>
    simp [h, MockDataStrategy.initiate_return, pyItems]

/-- `process_return` on a delivered or shipped order records the new
`Return` under its generated id. -/
theorem process_return_success_state (env : Env) (st : StratState)
    (order_id : String) (item_ids : Option (List String)) (reason : String)
    (o : Order) (st1 : StratState)
    (hgo : MockDataStrategy.get_order env st order_id = (some o, st1))
    (hst : o.status = "delivered" ∨ o.status = "shipped") :
    Store.lookup
      ((EcommerceMCPServer.process_return env st order_id item_ids reason).2).returns
      ("RET-" ++ env.retDigits)
      = some (mkReturn env order_id reason (pyItems item_ids o)) := by
  unfold EcommerceMCPServer.process_return EcommerceMCPServer.process_return_body
  rw [hgo]
  rcases hst with h | h <;>
    simp [h, MockDataStrategy.initiate_return, pyItems, mkReturn,
      Store.lookup_insert_self]

/-- C5: for a resolvable order that is neither delivered nor shipped,
`process_return` returns an ineligibility message containing
"cannot be returned yet"; for a delivered or shipped order it returns a
message containing "Return initiated" and the generated return id, and
when `item_ids` is absent or empty the recorded item list defaults to
all of the order's entries' product ids. -/
theorem C5_process_return (env : Env) (st : StratState) (order_id : String)
    (item_ids : Option (List String)) (reason : String) (o : Order)
    (st1 : StratState)
    (hgo : MockDataStrategy.get_order env st order_id = (some o, st1)) :
    (o.status ≠ "delivered" → o.status ≠ "shipped" →
      ContainsStr
        (EcommerceMCPServer.process_return env st order_id item_ids reason).1
        "cannot be returned yet") ∧
    ((o.status = "delivered" ∨ o.status = "shipped") →
      ContainsStr
        (EcommerceMCPServer.process_return env st order_id item_ids reason).1
        "Return initiated" ∧
      ContainsStr
        (EcommerceMCPServer.process_return env st order_id item_ids reason).1
        ("RET-" ++ env.retDigits) ∧
      ((item_ids = none ∨ item_ids = some []) →
        Store.lookup
          ((EcommerceMCPServer.process_return env st order_id item_ids
            reason).2).returns ("RET-" ++ env.retDigits)
          = some (mkReturn env order_id reason
              (o.entries.map (fun e => e.product_id))))) := by
  constructor
  · intro hd hs
    rw [process_return_reject env st order_id item_ids reason o st1 hgo hd hs]
    exact containsStr_appendR _ _ _
      ⟨" and ", ". Returns are available after delivery.", by decide⟩
  · intro hst
    refine ⟨?_, ?_, ?_⟩
    · rw [process_return_success_resp env st order_id item_ids reason o st1
        hgo hst]
      iterate 13 apply containsStr_appendL
      exact ⟨"", " for order ", by decide⟩
    · rw [process_return_success_resp env st order_id item_ids reason o st1
        hgo hst]
      iterate 9 apply containsStr_appendL
      apply containsStr_appendR
      exact containsStr_self _
    · intro hids
      rw [process_return_success_state env st order_id item_ids reason o st1
        hgo hst]
      rcases hids with h | h <;> (rw [h]; rfl)

/-- Witness for C5: the synthesized processing order `ORD-7-P` is
rejected with the ineligibility text; the delivered order `ORD-7-D`
yields the confirmation text. -/
theorem C5_witness :
    strContains
      (EcommerceMCPServer.process_return env0 st0 "ORD-7-P" none "dmg").1
      "cannot be returned yet" = true ∧
    strContains
      (EcommerceMCPServer.process_return env0 st0 "ORD-7-D" none "dmg").1
      "Return initiated" = true := by
  constructor
  · have hgo := get_order_synth env0 st0 "ORD-7-P" rfl (by decide) (by decide)
    apply strContains_of_containsStr
    refine (C5_process_return env0 st0 "ORD-7-P" none "dmg" _ _ hgo).1 ?_ ?_
    · rw [create_dynamic_order_status]
      decide
    · rw [create_dynamic_order_status]
      decide
  · have hgo := get_order_synth env0 st0 "ORD-7-D" rfl (by decide) (by decide)
    apply strContains_of_containsStr
    exact ((C5_process_return env0 st0 "ORD-7-D" none "dmg" _ _ hgo).2
      (Or.inl (by rw [create_dynamic_order_status]; decide))).1

/-- Relation between a support-service operation's `try` body and the
operation's result: the body's normal text when the body succeeds, the
fixed user-facing apology when any exception is raised inside it. -/
def wraps (body : Except String String × StratState)
    (result : String × StratState) (apology : String) : Prop :=
  (∃ r st1, body = (.ok r, st1) ∧ result = (r, st1)) ∨
  (∃ e st1, body = (.error e, st1) ∧ result = (apology, st1))

/-- A catch-all `match` on the body satisfies `wraps`. -/
theorem wrap_cases (body : Except String String × StratState)
    (apology : String) :
    wraps body
      (match body with
        | (.ok r, st1) => (r, st1)
        | (.error _, st1) => (apology, st1)) apology := by
  rcases body with ⟨r, st1⟩
  cases r with
  | ok s => exact Or.inl ⟨s, st1, rfl, rfl⟩
  | error e => exact Or.inr ⟨e, st1, rfl, rfl⟩

/-- C9: no public support-service operation propagates an exception: for
every input, each of the five operations returns its body's normal
formatted text, or its fixed user-facing apology string when any
exception is raised inside the body. -/
theorem C9_no_exception_propagation (env : Env) (st : StratState)
    (order_id reason topic identifier identifier_type : String)
    (item_ids : Option (List String)) :
    wraps (EcommerceMCPServer.get_order_status_body env st order_id)
      (EcommerceMCPServer.get_order_status env st order_id)
      "I encountered an error while checking your order status. Please try again later." ∧
    wraps (EcommerceMCPServer.cancel_order_body env st order_id reason)
      (EcommerceMCPServer.cancel_order env st order_id reason)
      "I encountered an error while processing your cancellation. Please try again later." ∧
    wraps (EcommerceMCPServer.process_return_body env st order_id item_ids reason)
      (EcommerceMCPServer.process_return env st order_id item_ids reason)
      "I encountered an error while processing your return. Please try again later." ∧
    wraps (EcommerceMCPServer.track_package_body env st identifier identifier_type)
      (EcommerceMCPServer.track_package env st identifier identifier_type)
      "I encountered an error while tracking your package. Please try again later." ∧
    wraps (EcommerceMCPServer.get_support_info_body env st topic)
      (EcommerceMCPServer.get_support_info env st topic)
      "I encountered an error. Please contact customer support at 1-800-SUPPORT." :=
  ⟨wrap_cases _ _, wrap_cases _ _, wrap_cases _ _, wrap_cases _ _,
    wrap_cases _ _⟩

/-- C10: the `TrackingInfo` constructor discards the `last_update` and
`tracking_url` keyword arguments passed by the mock strategy (they are
not fields of the model), and reading `last_update` or `tracking_url` on
any `TrackingInfo` value — including every record `get_order_tracking`
returns — fails with `AttributeError` (modelled as `none`), the declared
fields being exactly `TrackingInfo.fieldNames`. -/
theorem C10_tracking_info_fields :
    (∀ (a b c : String) (lu1 lu2 : DateTime) (e : Option DateTime)
       (u1 u2 : String) (g : Option String) (h : List HistEvent),
      TrackingInfo.fromKwargs a b c lu1 e u1 g h
        = TrackingInfo.fromKwargs a b c lu2 e u2 g h) ∧
    (∀ t : TrackingInfo, t.pyGetAttr "last_update" = none ∧
      t.pyGetAttr "tracking_url" = none) ∧
    (∀ name : String, name ∉ TrackingInfo.fieldNames →
      ∀ t : TrackingInfo, t.pyGetAttr name = none) := by
  refine ⟨fun a b c lu1 lu2 e u1 u2 g h => rfl, fun t => ⟨rfl, rfl⟩, ?_⟩
  intro name hname t
  unfold TrackingInfo.pyGetAttr
  simp only [TrackingInfo.fieldNames, List.mem_cons, List.mem_singleton,
    not_or] at hname
  obtain ⟨h1, h2, h3, h4, h5, h6⟩ := hname
  simp [h1, h2, h3, h4, h5, h6]

/-- C4 divergence: with a fresh strategy state, `ORD-1-S` resolves to a
tracking record, yet `track_package(..., "order")` returns the catch-all
apology — the rendering path raises `AttributeError` reading
`tracking.last_update`, which is not a field of `TrackingInfo`. Any
identifier_type other than "order" does return the fixed
"not yet implemented" text. -/
theorem C4_track_package_attribute_error :
    ((MockDataStrategy.get_order_tracking env0 st0 "ORD-1-S").1).isSome
        = true ∧
    (EcommerceMCPServer.track_package env0 st0 "ORD-1-S" "order").1 =
      "I encountered an error while tracking your package. Please try again later." ∧
    (EcommerceMCPServer.track_package env0 st0 "ORD-1-S" "tracking").1 =
      "Tracking by tracking number not yet implemented. Please provide an order ID instead." := by
  refine ⟨?_, ?_, ?_⟩ <;> rfl

/-- Witness for C7: the synthesized shipped order `ORD-2-S` reports the
carrier given by the character-sum formula. -/
theorem C7_witness :
    (MockDataStrategy.get_order_tracking env0 st0 "ORD-2-S").1.map
        TrackingInfo.carrier
      = some (MockDataStrategy.carriers.getD
          (MockDataStrategy.charSum "ORD-2-S" %
            MockDataStrategy.carriers.length) "") := by
  rcases hgt : MockDataStrategy.get_order_tracking env0 st0 "ORD-2-S"
    with ⟨ro, st1⟩
  cases ro with
  | none =>
    have hs : ((MockDataStrategy.get_order_tracking env0 st0 "ORD-2-S").1).isSome
        = true := by decide
    rw [hgt] at hs
    simp at hs
  | some t =>
    have hc := (C7_carrier_formula "ORD-2-S").1 env0 st0 t st1 hgt
    simp [hc]

/-- Witness for C10: `last_update` is outside the field list and reading
it on a concrete `TrackingInfo` yields `none`. -/
theorem C10_witness :
    "last_update" ∉ TrackingInfo.fieldNames ∧
    TrackingInfo.pyGetAttr
      { tracking_number := "TRK1", carrier := "UPS", status := "lost" }
      "last_update" = none := by
  refine ⟨by decide, ?_⟩
  exact C10_tracking_info_fields.2.2 "last_update" (by decide) _
